import Mathlib

/-!
Verification of the getValue financial-data engine (src/financial_data.py).

Shallow embedding conventions:
* Python `Optional[float]` fields are `Option ℚ` (exact rational arithmetic in
  place of IEEE floats; every claim is about structural/arithmetic behaviour,
  not rounding).
* Methods that mutate their record (`CashFlow.calculate_fcf`, ...) become pure
  functions returning the updated record together with the Python return value.
* Python code that can raise is embedded in `Except`; code that returns `None`
  on missing data is embedded with `Option`.
* Python's stable `sorted(..., key=..., reverse=True)` is embedded with
  `List.insertionSort` over the "comes-no-later-than" relation `keyGE`;
  insertion sort over a total transitive relation is the stable sort, so it
  agrees with CPython's stable sort output.
* The HTTP layer of `FinancialDataAPI` and the raw-JSON-to-period conversion
  are external inputs; they are abstracted as oracle parameters
  (`getProfile`, `getAnnual`, `getQuarterly`), as is Python's `float(str)`
  parser (`floatFn`).  No claim depends on their internals.
-/

/-- PeriodType enum from the source. -/
inductive PeriodType where
  | TTM
  | QUARTERLY
  | ANNUAL
deriving DecidableEq, Repr

/-- IncomeStatement dataclass: all monetary fields optional. -/
structure IncomeStatement where
  revenues : Option ℚ := none
  gross_profit : Option ℚ := none
  operating_income : Option ℚ := none
  ebitda : Option ℚ := none
  interest_expense : Option ℚ := none
  income_tax : Option ℚ := none
  net_income : Option ℚ := none
  eps : Option ℚ := none
  shares_outstanding : Option ℚ := none
deriving DecidableEq, Repr

/-- CashFlow dataclass. -/
structure CashFlow where
  cash_flow_from_operations : Option ℚ := none
  capital_expenditures : Option ℚ := none
  free_cash_flow : Option ℚ := none
  stock_based_compensation : Option ℚ := none
  adjusted_fcf : Option ℚ := none
  depreciation_amortization : Option ℚ := none
  change_in_working_capital : Option ℚ := none
  dividend_paid : Option ℚ := none
  repurchase_of_common_stock : Option ℚ := none
deriving DecidableEq, Repr

/-- BalanceSheet dataclass. -/
structure BalanceSheet where
  cash_and_equivalents : Option ℚ := none
  current_assets : Option ℚ := none
  total_assets : Option ℚ := none
  current_liabilities : Option ℚ := none
  total_debt : Option ℚ := none
  equity_value : Option ℚ := none
  shares_outstanding : Option ℚ := none
  minority_interest : Option ℚ := none
  preferred_stock : Option ℚ := none
  avg_equity : Option ℚ := none
  avg_assets : Option ℚ := none
deriving DecidableEq, Repr

/-- DebtBreakdown dataclass. -/
structure DebtBreakdown where
  current_portion_long_term_debt : Option ℚ := none
  current_portion_capital_leases : Option ℚ := none
  long_term_debt : Option ℚ := none
  capital_leases : Option ℚ := none
  total_debt : Option ℚ := none
  cash_and_equivalents : Option ℚ := none
  net_debt : Option ℚ := none
deriving DecidableEq, Repr

/-- MarketData dataclass (`date` abstracted to a string tag). -/
structure MarketData where
  date : Option String := none
  price : Option ℚ := none
  market_cap : Option ℚ := none
  shares_outstanding : Option ℚ := none
deriving DecidableEq, Repr

/-- FinancialPeriod dataclass. -/
structure FinancialPeriod where
  period_type : PeriodType
  period_name : String
  period_end_date : Option String := none
  income_statement : IncomeStatement := {}
  cash_flow : CashFlow := {}
  balance_sheet : BalanceSheet := {}
  debt_breakdown : DebtBreakdown := {}
  market_data : Option MarketData := none
deriving DecidableEq, Repr

/-- CompanyFinancials dataclass (`last_updated` timestamp abstracted). -/
structure CompanyFinancials where
  ticker : String
  company_name : String
  currency : String := "USD"
  last_updated : Option String := none
  ttm : Option FinancialPeriod := none
  quarterly_data : List FinancialPeriod := []
  annual_data : List FinancialPeriod := []
deriving DecidableEq, Repr

/-- CashFlow.calculate_fcf (financial_data.py:59-65): returns the stored
free_cash_flow if present, otherwise derives operations + capex (capex is a
negative outflow) when both are non-null, caching the result.  The pair is
(state after the call, Python return value). -/
def calculate_fcf (cf : CashFlow) : CashFlow × Option ℚ :=
  match cf.free_cash_flow with
  | some v => (cf, some v)
  | none =>
    match cf.cash_flow_from_operations, cf.capital_expenditures with
    | some a, some b => ({ cf with free_cash_flow := some (a + b) }, some (a + b))
    | _, _ => (cf, none)

/-- CashFlow.calculate_adjusted_fcf (financial_data.py:67-72): calls
calculate_fcf, then derives fcf - stock_based_compensation when both are
non-null (overwriting any stored adjusted_fcf), else returns the fcf value. -/
def calculate_adjusted_fcf (cf : CashFlow) : CashFlow × Option ℚ :=
  let r := calculate_fcf cf
  match r.2, r.1.stock_based_compensation with
  | some f, some s => ({ r.1 with adjusted_fcf := some (f - s) }, some (f - s))
  | _, _ => (r.1, r.2)

/-- Value calculate_fcf returns (and caches into free_cash_flow). -/
def fcfVal (cf : CashFlow) : Option ℚ :=
  match cf.free_cash_flow with
  | some v => some v
  | none =>
    match cf.cash_flow_from_operations, cf.capital_expenditures with
    | some a, some b => some (a + b)
    | _, _ => none

/-- Value stored into adjusted_fcf by calculate_adjusted_fcf. -/
def adjVal (cf : CashFlow) : Option ℚ :=
  match fcfVal cf, cf.stock_based_compensation with
  | some f, some s => some (f - s)
  | _, _ => cf.adjusted_fcf

/-- Value calculate_adjusted_fcf returns. -/
def adjRet (cf : CashFlow) : Option ℚ :=
  match fcfVal cf, cf.stock_based_compensation with
  | some f, some s => some (f - s)
  | _, _ => fcfVal cf

theorem calculate_fcf_eq (cf : CashFlow) :
    calculate_fcf cf = ({ cf with free_cash_flow := fcfVal cf }, fcfVal cf) := by
  obtain ⟨cfo, capex, fcf, sbc, adj, da, cwc, div, rep⟩ := cf
  cases fcf <;> cases cfo <;> cases capex <;> rfl

theorem calculate_adjusted_fcf_eq (cf : CashFlow) :
    calculate_adjusted_fcf cf =
      ({ cf with free_cash_flow := fcfVal cf, adjusted_fcf := adjVal cf }, adjRet cf) := by
  obtain ⟨cfo, capex, fcf, sbc, adj, da, cwc, div, rep⟩ := cf
  cases fcf <;> cases cfo <;> cases capex <;> cases sbc <;> rfl

/-- FinancialRatios.net_margin (financial_data.py:174-177).  The Python guard
is truthiness (`if self.income.revenues and self.income.net_income`), so both
operands must be non-null AND non-zero. -/
def net_margin (inc : IncomeStatement) : Option ℚ :=
  match inc.revenues, inc.net_income with
  | some r, some n => if r ≠ 0 ∧ n ≠ 0 then some (n / r) else none
  | _, _ => none

/-- FinancialRatios.interest_coverage (financial_data.py:207-210).  The guard
checks only interest_expense; inside the branch Python evaluates
`self.income.operating_income / abs(...)`, which raises TypeError when
operating_income is None — embedded as `.error ()`. -/
def interest_coverage (inc : IncomeStatement) : Except Unit (Option ℚ) :=
  match inc.interest_expense with
  | some ie =>
    if ie ≠ 0 then
      match inc.operating_income with
      | some oi => .ok (some (oi / |ie|))
      | none => .error ()
    else .ok none
  | none => .ok none

/-- Python str.strip on a char list (ASCII whitespace suffices for the
period-name grammar the code handles). -/
def pyStrip (cs : List Char) : List Char :=
  ((cs.dropWhile Char.isWhitespace).reverse.dropWhile Char.isWhitespace).reverse

/-- Numeric value of a decimal digit character. -/
def digitVal (c : Char) : Nat := c.toNat - 48

/-- Four-digit year value. -/
def year4 (a b c d : Char) : Nat :=
  1000 * digitVal a + 100 * digitVal b + 10 * digitVal c + digitVal d

/-- Match of the anchored (non-end-anchored) regex `(\d{4})\s*Q(\d)`:
four digits, optional whitespace, literal Q, one digit; trailing characters
are ignored, exactly as `re.match` does. -/
def quarterMatch : List Char → Option (Nat × Nat)
  | a :: b :: c :: d :: rest =>
    if a.isDigit && b.isDigit && c.isDigit && d.isDigit then
      match rest.dropWhile Char.isWhitespace with
      | 'Q' :: q :: _ => if q.isDigit then some (year4 a b c d, digitVal q) else none
      | _ => none
    else none
  | _ => none

/-- Kind tag returned by PeriodManager.parse_period_info (Python returns the
strings "TTM" / "QUARTERLY" / "ANNUAL" or None). -/
inductive ParsedKind where
  | TTM
  | QUARTERLY
  | ANNUAL
deriving DecidableEq, Repr

/-- PeriodManager.parse_period_info (financial_data.py:233-245). -/
def parse_period_info (period_name : String) : Option ParsedKind × Nat × Option Nat :=
  let cs := pyStrip period_name.data
  if cs.map Char.toUpper = ['T', 'T', 'M'] then (some .TTM, 0, none)
  else
    match quarterMatch cs with
    | some (y, q) => (some .QUARTERLY, y, some q)
    | none =>
      match cs with
      | [a, b, c, d] =>
        if a.isDigit && b.isDigit && c.isDigit && d.isDigit then
          (some .ANNUAL, year4 a b c d, none)
        else (none, 0, none)
      | _ => (none, 0, none)

/-- Sort key of PeriodManager._sort_periods: (year, quarter-or-0). -/
def periodKey (p : FinancialPeriod) : Nat × Nat :=
  let r := parse_period_info p.period_name
  (r.2.1, r.2.2.getD 0)

/-- Relation "a sorts no later than b" for the descending sort
(lexicographic comparison of the Python tuples, reversed). -/
def keyGE (a b : FinancialPeriod) : Prop :=
  (periodKey b).1 < (periodKey a).1 ∨
    ((periodKey a).1 = (periodKey b).1 ∧ (periodKey b).2 ≤ (periodKey a).2)

instance : DecidableRel keyGE := fun a b => by
  unfold keyGE
  infer_instance

instance : IsTotal FinancialPeriod keyGE :=
  ⟨by
    intro a b
    unfold keyGE
    omega⟩

instance : IsTrans FinancialPeriod keyGE :=
  ⟨by
    intro a b c
    unfold keyGE
    omega⟩

/-- PeriodManager._sort_periods (financial_data.py:301-305): CPython's stable
sort with reverse=True; insertion sort over the total transitive relation
keyGE produces exactly the stable descending order. -/
def sortPeriods (periods : List FinancialPeriod) : List FinancialPeriod :=
  List.insertionSort keyGE periods

/-- PeriodManager._sum_field (financial_data.py:307-317): sum of the non-null
values; None when every value is null. -/
def sumField (periods : List FinancialPeriod) (g : FinancialPeriod → Option ℚ) : Option ℚ :=
  let vals := periods.filterMap g
  if vals.isEmpty then none else some (vals.foldl (· + ·) 0)

theorem sumField_eq_none_iff (l : List FinancialPeriod) (g : FinancialPeriod → Option ℚ) :
    sumField l g = none ↔ ∀ p ∈ l, g p = none := by
  have h2 : sumField l g = none ↔ l.filterMap g = [] := by
    unfold sumField
    rcases h : l.filterMap g with _ | ⟨v, vs⟩ <;> simp [h]
  rw [h2, List.filterMap_eq_nil_iff]

theorem sumField_eq_some (l : List FinancialPeriod) (g : FinancialPeriod → Option ℚ) (v : ℚ)
    (h : sumField l g = some v) :
    v = (l.filterMap g).foldl (· + ·) 0 ∧ l.filterMap g ≠ [] := by
  unfold sumField at h
  rcases hf : l.filterMap g with _ | ⟨w, ws⟩
  · rw [hf] at h
    simp at h
  · rw [hf] at h
    simp at h
    refine ⟨?_, by simp⟩
    simp only [List.foldl_cons, zero_add]
    exact h.symm

/-- The four quarters the code actually aggregates: the FIRST FOUR periods in
input order, then sorted descending (financial_data.py:250). -/
def usedQuarters (c : CompanyFinancials) : List FinancialPeriod :=
  sortPeriods (c.quarterly_data.take 4)

/-- The TTM cash-flow record as first assembled from the per-field sums,
before the calculate_fcf / calculate_adjusted_fcf derivations run on it. -/
def ttmBaseCashFlow (sq : List FinancialPeriod) : CashFlow :=
  { cash_flow_from_operations := sumField sq (fun p => p.cash_flow.cash_flow_from_operations)
    capital_expenditures := sumField sq (fun p => p.cash_flow.capital_expenditures)
    free_cash_flow := sumField sq (fun p => p.cash_flow.free_cash_flow)
    stock_based_compensation := sumField sq (fun p => p.cash_flow.stock_based_compensation)
    adjusted_fcf := none
    depreciation_amortization := sumField sq (fun p => p.cash_flow.depreciation_amortization)
    change_in_working_capital := sumField sq (fun p => p.cash_flow.change_in_working_capital)
    dividend_paid := sumField sq (fun p => p.cash_flow.dividend_paid)
    repurchase_of_common_stock := sumField sq (fun p => p.cash_flow.repurchase_of_common_stock) }

/-- PeriodManager.calculate_ttm_from_quarters (financial_data.py:247-278).
The [] arm of the match is unreachable: usedQuarters has length 4 whenever
the length guard passes (the Python code indexes sorted_q[0] directly). -/
def calculate_ttm_from_quarters (c : CompanyFinancials) : Option FinancialPeriod :=
  if c.quarterly_data.length < 4 then none
  else
    match usedQuarters c with
    | [] => none
    | q0 :: _ =>
      some
        { period_type := .TTM
          period_name := "TTM"
          period_end_date := none
          income_statement :=
            { revenues := sumField (usedQuarters c) (fun p => p.income_statement.revenues)
              gross_profit := sumField (usedQuarters c) (fun p => p.income_statement.gross_profit)
              operating_income := sumField (usedQuarters c) (fun p => p.income_statement.operating_income)
              ebitda := sumField (usedQuarters c) (fun p => p.income_statement.ebitda)
              interest_expense := sumField (usedQuarters c) (fun p => p.income_statement.interest_expense)
              income_tax := sumField (usedQuarters c) (fun p => p.income_statement.income_tax)
              net_income := sumField (usedQuarters c) (fun p => p.income_statement.net_income)
              eps := sumField (usedQuarters c) (fun p => p.income_statement.eps)
              shares_outstanding := q0.income_statement.shares_outstanding }
          cash_flow := (calculate_adjusted_fcf (calculate_fcf (ttmBaseCashFlow (usedQuarters c))).1).1
          balance_sheet := q0.balance_sheet
          debt_breakdown := q0.debt_breakdown
          market_data := q0.market_data }

/-- One step of FinancialDataAPI._calculate_averages: update curr's averages
from curr and the next (chronologically previous) annual period.  Each field
is only assigned when both operands are present, otherwise left unchanged. -/
def updAvg (curr next : FinancialPeriod) : FinancialPeriod :=
  { curr with
    balance_sheet :=
      { curr.balance_sheet with
        avg_equity :=
          match curr.balance_sheet.equity_value, next.balance_sheet.equity_value with
          | some a, some b => some ((a + b) / 2)
          | _, _ => curr.balance_sheet.avg_equity
        avg_assets :=
          match curr.balance_sheet.total_assets, next.balance_sheet.total_assets with
          | some a, some b => some ((a + b) / 2)
          | _, _ => curr.balance_sheet.avg_assets } }

/-- FinancialDataAPI._calculate_averages (financial_data.py:572-582): each
element paired with its successor; the last element is left untouched. -/
def calcAverages : List FinancialPeriod → List FinancialPeriod
  | [] => []
  | [p] => [p]
  | p :: q :: rest => updAvg p q :: calcAverages (q :: rest)

/-- Python str.split on a single separator character. -/
def splitOnCharAux (sep : Char) : List Char → List Char → List (List Char)
  | [], acc => [acc.reverse]
  | c :: rest, acc =>
    if c = sep then acc.reverse :: splitOnCharAux sep rest []
    else splitOnCharAux sep rest (c :: acc)

/-- Python str.split(sep): "".split gives [""], separators at the edges give
empty segments. -/
def splitOnChar (sep : Char) (cs : List Char) : List (List Char) :=
  splitOnCharAux sep cs []

/-- Helper for re.split over runs of tabs: inTab marks that the previous
character was a tab, so further tabs extend the same delimiter run. -/
def splitTabsAux : Bool → List Char → List Char → List (List Char)
  | _, [], acc => [acc.reverse]
  | inTab, c :: rest, acc =>
    if c = '\t' then
      if inTab then splitTabsAux true rest acc
      else acc.reverse :: splitTabsAux true rest []
    else splitTabsAux false rest (c :: acc)

/-- re.split of a row on one-or-more tabs, as in parse_from_text. -/
def splitTabs (cs : List Char) : List (List Char) :=
  splitTabsAux false cs []

/-- Prefix test on char lists. -/
def startsWithL : List Char → List Char → Bool
  | [], _ => true
  | _ :: _, [] => false
  | a :: as, b :: bs => a == b && startsWithL as bs

/-- Python substring containment (`needle in hay`). -/
def containsL (needle : List Char) : List Char → Bool
  | [] => needle.isEmpty
  | c :: rest => startsWithL needle (c :: rest) || containsL needle rest

/-- Row predicate of the header search: `row and row[0] and
'Income statement' in str(row[0])`. -/
def isHeaderRow (row : List (List Char)) : Bool :=
  match row with
  | [] => false
  | c0 :: _ => !c0.isEmpty && containsL ("Income statement".data) c0

/-- First index satisfying a predicate (the enumerate-and-break loop). -/
def findIdxA (p : α → Bool) : List α → Option Nat
  | [] => none
  | a :: l => if p a then some 0 else (findIdxA p l).map (· + 1)

theorem findIdxA_lt_length (p : α → Bool) (l : List α) (i : Nat)
    (h : findIdxA p l = some i) : i < l.length := by
  induction l generalizing i with
  | nil => simp [findIdxA] at h
  | cons a t ih =>
    by_cases hp : p a
    · simp [findIdxA, hp] at h
      simp only [List.length_cons]
      omega
    · simp [findIdxA, hp] at h
      rcases h with ⟨j, hj, rfl⟩
      have := ih j hj
      simp only [List.length_cons]
      omega

/-- Python list indexing: raises IndexError out of bounds. -/
def listGet : List α → Nat → Except String α
  | [], _ => .error "IndexError"
  | a :: _, 0 => .ok a
  | _ :: l, n + 1 => listGet l n

theorem listGet_ok (l : List α) (i : Nat) (h : i < l.length) :
    listGet l i = .ok (l.get ⟨i, h⟩) := by
  induction l generalizing i with
  | nil => simp at h
  | cons a t ih =>
    cases i with
    | zero => rfl
    | succ n => exact ih n (by simpa using h)

/-- Period construction from one header cell of the text block: the name is
stripped, then typed by substring tests ('TTM' case-insensitive, then a
case-sensitive 'Q'). -/
def mkPeriodFromHeader (cell : List Char) : FinancialPeriod :=
  let pname := pyStrip cell
  let ptype :=
    if containsL ['T', 'T', 'M'] (pname.map Char.toUpper) then PeriodType.TTM
    else if containsL ['Q'] pname then PeriodType.QUARTERLY
    else PeriodType.ANNUAL
  { period_type := ptype, period_name := String.mk pname }

/-- The fixed label-to-field table of parse_from_text (exact, case-sensitive
match on the stripped first cell), as setters on a period. -/
def fieldMap (label : String) : Option (FinancialPeriod → ℚ → FinancialPeriod) :=
  match label with
  | "Revenues" =>
    some (fun p v => { p with income_statement := { p.income_statement with revenues := some v } })
  | "Gross profit" =>
    some (fun p v => { p with income_statement := { p.income_statement with gross_profit := some v } })
  | "Operating income" =>
    some (fun p v => { p with income_statement := { p.income_statement with operating_income := some v } })
  | "EBITDA" =>
    some (fun p v => { p with income_statement := { p.income_statement with ebitda := some v } })
  | "Interest Expense" =>
    some (fun p v => { p with income_statement := { p.income_statement with interest_expense := some v } })
  | "Income Tax" =>
    some (fun p v => { p with income_statement := { p.income_statement with income_tax := some v } })
  | "Net Income" =>
    some (fun p v => { p with income_statement := { p.income_statement with net_income := some v } })
  | "EPS" =>
    some (fun p v => { p with income_statement := { p.income_statement with eps := some v } })
  | "Cash flow from operations" =>
    some (fun p v => { p with cash_flow := { p.cash_flow with cash_flow_from_operations := some v } })
  | "Capital expenditures" =>
    some (fun p v => { p with cash_flow := { p.cash_flow with capital_expenditures := some v } })
  | "Free Cash flow" =>
    some (fun p v => { p with cash_flow := { p.cash_flow with free_cash_flow := some v } })
  | "Stock based compensation" =>
    some (fun p v => { p with cash_flow := { p.cash_flow with stock_based_compensation := some v } })
  | "Depreciation & Amortization" =>
    some (fun p v => { p with cash_flow := { p.cash_flow with depreciation_amortization := some v } })
  | "Change in Working Capital" =>
    some (fun p v => { p with cash_flow := { p.cash_flow with change_in_working_capital := some v } })
  | "Dividend paid" =>
    some (fun p v => { p with cash_flow := { p.cash_flow with dividend_paid := some v } })
  | "Repurchase of Common Stock" =>
    some (fun p v => { p with cash_flow := { p.cash_flow with repurchase_of_common_stock := some v } })
  | _ => none

/-- The inner cell loop of a matched data row: the ci-th cell (ci ≥ 1) is
parsed as a float after removing commas and, on success, assigned to the
(ci-1)-th period; a ValueError is swallowed.  The zip-style recursion bakes
in Python's loop bound min(len(row), len(periods)+1). -/
def applyCells (floatFn : String → Except Unit ℚ)
    (set : FinancialPeriod → ℚ → FinancialPeriod) :
    List FinancialPeriod → List (List Char) → List FinancialPeriod
  | ps, [] => ps
  | [], _ :: _ => []
  | p :: ps, cell :: cells =>
    (match floatFn (String.mk (cell.filter (fun ch => ch ≠ ','))) with
     | .ok v => set p v
     | .error _ => p) :: applyCells floatFn set ps cells

/-- One data row of parse_from_text: skipped when empty-labelled or when the
stripped label is not in the field table. -/
def applyRow (floatFn : String → Except Unit ℚ)
    (periods : List FinancialPeriod) (row : List (List Char)) : List FinancialPeriod :=
  match row with
  | [] => periods
  | c0 :: cells =>
    if c0.isEmpty then periods
    else
      match fieldMap (String.mk (pyStrip c0)) with
      | some set => applyCells floatFn set periods cells
      | none => periods

/-- The final distribution loop: TTM-typed periods land in `ttm` (last one
wins), quarterly and annual periods are appended in order. -/
def distributePeriods (periods : List FinancialPeriod) :
    Option FinancialPeriod × List FinancialPeriod × List FinancialPeriod :=
  periods.foldl
    (fun acc p =>
      match p.period_type with
      | .TTM => (some p, acc.2.1, acc.2.2)
      | .QUARTERLY => (acc.1, acc.2.1 ++ [p], acc.2.2)
      | .ANNUAL => (acc.1, acc.2.1, acc.2.2 ++ [p]))
    (none, [], [])

/-- The line/column grid parse_from_text works on: strip the whole text,
split into lines, split each line on tab runs. -/
def mkData (text : String) : List (List (List Char)) :=
  (splitOnChar '\n' (pyStrip text.data)).map splitTabs

/-- The company record parse_from_text starts from (and returns as-is when no
header row is found). -/
def emptyCompany (ticker : String) : CompanyFinancials :=
  { ticker := ticker, company_name := ticker }

/-- FinancialDataParser.parse_from_text (financial_data.py:589-668),
parameterized by Python's float() as an oracle `floatFn`.  The result is in
`Except`: every list access that Python performs unguarded goes through
`listGet`, so `.ok` is a theorem, not a typing accident. -/
def parse_from_text (floatFn : String → Except Unit ℚ) (text : String)
    (ticker : String) : Except String CompanyFinancials :=
  let data := mkData text
  match findIdxA isHeaderRow data with
  | none => .ok (emptyCompany ticker)
  | some idx =>
    match listGet data idx with
    | .error e => .error e
    | .ok headers =>
      let periods0 := (headers.drop 1).map mkPeriodFromHeader
      let periods := (data.drop (idx + 1)).foldl (applyRow floatFn) periods0
      let d := distributePeriods periods
      let c : CompanyFinancials :=
        { emptyCompany ticker with
            ttm := d.1, quarterly_data := d.2.1, annual_data := d.2.2 }
      if c.ttm = none ∧ 4 ≤ c.quarterly_data.length then
        .ok { c with ttm := calculate_ttm_from_quarters c }
      else .ok c

/-- Python str.upper on a Lean string. -/
def pyUpperS (s : String) : String := String.mk (s.data.map Char.toUpper)

/-- Python str.strip on a Lean string. -/
def pyStripS (s : String) : String := String.mk (pyStrip s.data)

/-- Python str.isalpha: non-empty and all alphabetic. -/
def pyIsAlpha (cs : List Char) : Bool := !cs.isEmpty && cs.all Char.isAlpha

/-- One profile JSON object: only the two fields the code reads, each with
its .get default. -/
structure Profile where
  companyName : Option String := none
  currency : Option String := none
deriving DecidableEq, Repr

/-- FinancialDataAPI.fetch_company (financial_data.py:360-570).  The HTTP
requests and the raw JSON-to-period field conversion (a straight-line
per-field copy no claim concerns) are abstracted as oracles: `getProfile`
returns the decoded profile list (none = request failure), `getAnnual` /
`getQuarterly` return the assembled period lists.  The logic the claims are
about — ticker normalization, the empty-profile bailout, the trailing-average
pass, the TTM derivation and the final truncation — is embedded faithfully. -/
def fetch_company (getProfile : String → Option (List Profile))
    (getAnnual getQuarterly : String → List FinancialPeriod)
    (symbol : String) (num_years : Nat) : Option CompanyFinancials :=
  let sym := pyStripS (pyUpperS symbol)
  match getProfile sym with
  | none => none
  | some [] => none
  | some (p :: _) =>
    let annual := calcAverages (getAnnual sym)
    let company : CompanyFinancials :=
      { ticker := sym
        company_name := p.companyName.getD sym
        currency := p.currency.getD "USD"
        last_updated := none
        ttm := none
        quarterly_data := getQuarterly sym
        annual_data := annual }
    let company :=
      if 4 ≤ company.quarterly_data.length then
        { company with ttm := calculate_ttm_from_quarters company }
      else company
    some { company with annual_data := company.annual_data.take num_years }

/-- Python `len(source_str) <= 6 and source_str.replace('.', '').isalpha()`. -/
def condApi (s : String) : Bool :=
  decide (s.data.length ≤ 6) && pyIsAlpha (s.data.filter (fun ch => ch ≠ '.'))

/-- Python `'\t' in source_str or source_str.count('\n') > 3`. -/
def condText (s : String) : Bool :=
  s.data.contains '\t' || decide (3 < s.data.count '\n')

/-- Python `ticker or "UNKNOWN"` (an empty string is falsy). -/
def pyTickerOr (tk : Option String) : String :=
  match tk with
  | none => "UNKNOWN"
  | some t => if t = "" then "UNKNOWN" else t

/-- Dict assignment `self.companies[key] = company`. -/
def dictInsert (d : List (String × CompanyFinancials)) (k : String)
    (v : CompanyFinancials) : List (String × CompanyFinancials) :=
  (k, v) :: d.filter (fun kv => kv.1 != k)

/-- GetValueDataManager.load_company (financial_data.py:681-694), with the
same oracles as fetch_company plus `hasApi` for `self.api_client` being
non-None.  Returns (Python return value, cache after the call).  The text
branch matches on the Except result of parse_from_text; the error arm is
unreachable (see the totality theorem for claim C10). -/
def load_company (getProfile : String → Option (List Profile))
    (getAnnual getQuarterly : String → List FinancialPeriod)
    (floatFn : String → Except Unit ℚ) (hasApi : Bool)
    (companies : List (String × CompanyFinancials))
    (source : String) (ticker : Option String) :
    Option CompanyFinancials × List (String × CompanyFinancials) :=
  let company : Option CompanyFinancials :=
    if condApi source && hasApi then
      fetch_company getProfile getAnnual getQuarterly (pyUpperS source) 10
    else if condText source then
      match parse_from_text floatFn source (pyTickerOr ticker) with
      | .ok c => some c
      | .error _ => none
    else none
  match company with
  | some c => (some c, dictInsert companies c.ticker c)
  | none => (none, companies)

/-- Claim C3 (code bug in the source): with operating_income null and
interest_expense non-null and non-zero, interest_coverage reaches
`self.income.operating_income / abs(self.income.interest_expense)` with a
None numerator and raises TypeError instead of returning null; the embedding
evaluates to `.error ()` at that input.  The companion conjuncts confirm the
embedding against the no-exception paths (a non-null numerator divides, a
null or zero interest_expense short-circuits to null). -/
theorem claim_C3 :
    interest_coverage { operating_income := none, interest_expense := some 5 } = .error () ∧
    interest_coverage { operating_income := some 50, interest_expense := some 5 } = .ok (some 10) ∧
    interest_coverage { operating_income := none, interest_expense := some 0 } = .ok none ∧
    interest_coverage { operating_income := none, interest_expense := none } = .ok none := by
  refine ⟨by norm_num [interest_coverage], ?_, by norm_num [interest_coverage], rfl⟩
  norm_num [interest_coverage]

/-- Claim C4: calculate_fcf returns a pre-set free_cash_flow unchanged; when
unset it derives and caches operations + capex (addition — capex is stored
negative); and a second call returns the identical state and value. -/
theorem claim_C4 (cf : CashFlow) :
    (∀ v : ℚ, cf.free_cash_flow = some v → calculate_fcf cf = (cf, some v)) ∧
    (∀ a b : ℚ, cf.free_cash_flow = none → cf.cash_flow_from_operations = some a →
       cf.capital_expenditures = some b →
       calculate_fcf cf = ({ cf with free_cash_flow := some (a + b) }, some (a + b))) ∧
    calculate_fcf (calculate_fcf cf).1 = calculate_fcf cf := by
  refine ⟨?_, ?_, ?_⟩
  · intro v hv
    simp [calculate_fcf, hv]
  · intro a b h1 h2 h3
    simp [calculate_fcf, h1, h2, h3]
  · obtain ⟨cfo, capex, fcf, sbc, adj, da, cwc, div, rep⟩ := cf
    cases fcf <;> cases cfo <;> cases capex <;> rfl

/-- A record with free_cash_flow pre-set (operations/capex fields arbitrary
junk that must be ignored). -/
def cfPre : CashFlow :=
  { free_cash_flow := some 7, cash_flow_from_operations := some 1000,
    capital_expenditures := some 1000 }

/-- A record where free_cash_flow must be derived as 10 + (-2) = 8. -/
def cfDrv : CashFlow :=
  { cash_flow_from_operations := some 10, capital_expenditures := some (-2) }

/-- Witness for claim C4 at concrete inputs. -/
theorem claim_C4_witness :
    calculate_fcf cfPre = (cfPre, some 7) ∧
    calculate_fcf cfDrv = ({ cfDrv with free_cash_flow := some 8 }, some 8) ∧
    calculate_fcf (calculate_fcf cfDrv).1 = calculate_fcf cfDrv := by
  refine ⟨(claim_C4 cfPre).1 7 rfl, ?_, (claim_C4 cfDrv).2.2⟩
  have h := (claim_C4 cfDrv).2.1 10 (-2) rfl rfl rfl
  norm_num at h
  exact h

/-- A record with adjusted_fcf already set: the claim says recomputation
returns the cached 999 unchanged, but the code re-derives 100 - 10 = 90 and
overwrites the cache. -/
def cfOver : CashFlow :=
  { free_cash_flow := some 100, stock_based_compensation := some 10,
    adjusted_fcf := some 999 }

/-- Counterexample to claim C5: calculate_adjusted_fcf has no cached-value
check; on a record with adjusted_fcf = 999 it returns 90 = 100 - 10 and
overwrites the stored 999. -/
theorem cex_C5 :
    calculate_adjusted_fcf cfOver = ({ cfOver with adjusted_fcf := some 90 }, some 90) ∧
    (calculate_adjusted_fcf cfOver).1.adjusted_fcf ≠ cfOver.adjusted_fcf := by
  have h : calculate_adjusted_fcf cfOver = ({ cfOver with adjusted_fcf := some 90 }, some 90) := by
    norm_num [calculate_adjusted_fcf, calculate_fcf, cfOver]
  refine ⟨h, ?_⟩
  rw [h]
  decide

/-- Claim C5 (amended): whenever the fcf value (stored or derived) and
stock_based_compensation are available, calculate_adjusted_fcf stores and
returns fcf - sbc, regardless of any previously stored adjusted_fcf; the
call is idempotent as a whole (a second call reproduces the same state and
return value), but it does not return a pre-set adjusted_fcf cache. -/
theorem claim_C5 (cf : CashFlow) :
    (∀ a s : ℚ, (calculate_fcf cf).2 = some a → cf.stock_based_compensation = some s →
       calculate_adjusted_fcf cf =
         ({ cf with free_cash_flow := some a, adjusted_fcf := some (a - s) }, some (a - s))) ∧
    calculate_adjusted_fcf (calculate_adjusted_fcf cf).1 = calculate_adjusted_fcf cf := by
  constructor
  · intro a s h1 h2
    rw [calculate_fcf_eq] at h1
    simp only at h1
    rw [calculate_adjusted_fcf_eq]
    simp [adjVal, adjRet, h1, h2]
  · obtain ⟨cfo, capex, fcf, sbc, adj, da, cwc, div, rep⟩ := cf
    cases fcf <;> cases cfo <;> cases capex <;> cases sbc <;> rfl

/-- A record whose fcf is derived (20 + (-5) = 15) and then adjusted by
sbc = 3 to 12. -/
def cfW5 : CashFlow :=
  { cash_flow_from_operations := some 20, capital_expenditures := some (-5),
    stock_based_compensation := some 3 }

/-- Witness for claim C5 at a concrete input. -/
theorem claim_C5_witness :
    calculate_adjusted_fcf cfW5 =
      ({ cfW5 with free_cash_flow := some 15, adjusted_fcf := some 12 }, some 12) ∧
    calculate_adjusted_fcf (calculate_adjusted_fcf cfW5).1 = calculate_adjusted_fcf cfW5 := by
  constructor
  · have h := (claim_C5 cfW5).1 15 3 (by norm_num [calculate_fcf, cfW5]) rfl
    norm_num at h
    exact h
  · exact (claim_C5 cfW5).2

/-- The record refuting claim C6: revenues present and non-zero, net_income
present and equal to zero. -/
def incZero : IncomeStatement := { revenues := some 100, net_income := some 0 }

/-- Counterexample to claim C6: with revenues = 100 and net_income = 0 the
code's truthiness guard fails on net_income, so net_margin returns null, not
the claimed 0. -/
theorem cex_C6 : net_margin incZero = none ∧ net_margin incZero ≠ some 0 := by
  constructor <;> decide

/-- Claim C6 (amended): net_margin equals net_income / revenues when both are
non-null and non-zero, and is null exactly when revenues is null or 0 OR
net_income is null or 0 (Python truthiness also nullifies a zero numerator);
in particular revenues = 0 yields null, not a division error. -/
theorem claim_C6 :
    (∀ (inc : IncomeStatement) (r n : ℚ), inc.revenues = some r → inc.net_income = some n →
       r ≠ 0 → n ≠ 0 → net_margin inc = some (n / r)) ∧
    (∀ inc : IncomeStatement,
       net_margin inc = none ↔
         inc.revenues = none ∨ inc.revenues = some 0 ∨
           inc.net_income = none ∨ inc.net_income = some 0) := by
  constructor
  · intro inc r n h1 h2 h3 h4
    simp [net_margin, h1, h2, h3, h4]
  · intro inc
    rcases h1 : inc.revenues with _ | r <;> rcases h2 : inc.net_income with _ | n <;>
      simp [net_margin, h1, h2]
    by_cases hr : r = 0
    · simp [hr]
    · by_cases hn : n = 0 <;> simp [hr, hn]

/-- A period with an ordinary margin: 50 / 200. -/
def incW6 : IncomeStatement := { revenues := some 200, net_income := some 50 }

/-- A period with revenues present but zero. -/
def incR0 : IncomeStatement := { revenues := some 0, net_income := some 5 }

/-- Witness for claim C6 at concrete inputs (including the revenues = 0
null-safety case). -/
theorem claim_C6_witness :
    net_margin incW6 = some (50 / 200) ∧ net_margin incR0 = none :=
  ⟨claim_C6.1 incW6 200 50 rfl rfl (by norm_num) (by norm_num),
   (claim_C6.2 incR0).mpr (Or.inr (Or.inl rfl))⟩

theorem usedQuarters_length (c : CompanyFinancials) :
    (usedQuarters c).length = min 4 c.quarterly_data.length := by
  unfold usedQuarters sortPeriods
  rw [List.length_insertionSort, List.length_take]

/-- Closed form of calculate_ttm_from_quarters when the guard passes and the
sorted quarters are exposed. -/
theorem calculate_ttm_some (c : CompanyFinancials) (h4 : 4 ≤ c.quarterly_data.length)
    (q0 : FinancialPeriod) (rest : List FinancialPeriod)
    (hq : usedQuarters c = q0 :: rest) :
    calculate_ttm_from_quarters c = some
      { period_type := .TTM
        period_name := "TTM"
        period_end_date := none
        income_statement :=
          { revenues := sumField (q0 :: rest) (fun p => p.income_statement.revenues)
            gross_profit := sumField (q0 :: rest) (fun p => p.income_statement.gross_profit)
            operating_income := sumField (q0 :: rest) (fun p => p.income_statement.operating_income)
            ebitda := sumField (q0 :: rest) (fun p => p.income_statement.ebitda)
            interest_expense := sumField (q0 :: rest) (fun p => p.income_statement.interest_expense)
            income_tax := sumField (q0 :: rest) (fun p => p.income_statement.income_tax)
            net_income := sumField (q0 :: rest) (fun p => p.income_statement.net_income)
            eps := sumField (q0 :: rest) (fun p => p.income_statement.eps)
            shares_outstanding := q0.income_statement.shares_outstanding }
        cash_flow := (calculate_adjusted_fcf (calculate_fcf (ttmBaseCashFlow (q0 :: rest))).1).1
        balance_sheet := q0.balance_sheet
        debt_breakdown := q0.debt_breakdown
        market_data := q0.market_data } := by
  unfold calculate_ttm_from_quarters
  rw [if_neg (by omega), hq]

/-- Fields of the TTM cash-flow record after the two derivation calls: every
summed field other than free_cash_flow survives unchanged; free_cash_flow
ends as fcfVal of the pre-derivation record. -/
theorem derived_cashflow_fields (cf : CashFlow) :
    ((calculate_adjusted_fcf (calculate_fcf cf).1).1).cash_flow_from_operations
        = cf.cash_flow_from_operations ∧
    ((calculate_adjusted_fcf (calculate_fcf cf).1).1).capital_expenditures
        = cf.capital_expenditures ∧
    ((calculate_adjusted_fcf (calculate_fcf cf).1).1).stock_based_compensation
        = cf.stock_based_compensation ∧
    ((calculate_adjusted_fcf (calculate_fcf cf).1).1).depreciation_amortization
        = cf.depreciation_amortization ∧
    ((calculate_adjusted_fcf (calculate_fcf cf).1).1).change_in_working_capital
        = cf.change_in_working_capital ∧
    ((calculate_adjusted_fcf (calculate_fcf cf).1).1).dividend_paid
        = cf.dividend_paid ∧
    ((calculate_adjusted_fcf (calculate_fcf cf).1).1).repurchase_of_common_stock
        = cf.repurchase_of_common_stock ∧
    ((calculate_adjusted_fcf (calculate_fcf cf).1).1).free_cash_flow = fcfVal cf := by
  obtain ⟨cfo, capex, fcf, sbc, adj, da, cwc, div, rep⟩ := cf
  cases fcf <;> cases cfo <;> cases capex <;> cases sbc <;>
    exact ⟨rfl, rfl, rfl, rfl, rfl, rfl, rfl, rfl⟩

/-- Property asserted by claim C1 (amended): every summed field of the TTM
period is the sumField aggregate of the four quarters used; free_cash_flow is
the aggregate when that is non-null and otherwise may be re-derived from the
aggregated operations and capex; and sumField is null exactly when every
quarter is null, else the sum of the non-null values. -/
abbrev ttmSumsSpec (c : CompanyFinancials) : Prop :=
  ∃ t, calculate_ttm_from_quarters c = some t ∧
    t.income_statement.revenues = sumField (usedQuarters c) (fun p => p.income_statement.revenues) ∧
    t.income_statement.gross_profit = sumField (usedQuarters c) (fun p => p.income_statement.gross_profit) ∧
    t.income_statement.operating_income = sumField (usedQuarters c) (fun p => p.income_statement.operating_income) ∧
    t.income_statement.ebitda = sumField (usedQuarters c) (fun p => p.income_statement.ebitda) ∧
    t.income_statement.interest_expense = sumField (usedQuarters c) (fun p => p.income_statement.interest_expense) ∧
    t.income_statement.income_tax = sumField (usedQuarters c) (fun p => p.income_statement.income_tax) ∧
    t.income_statement.net_income = sumField (usedQuarters c) (fun p => p.income_statement.net_income) ∧
    t.income_statement.eps = sumField (usedQuarters c) (fun p => p.income_statement.eps) ∧
    t.cash_flow.cash_flow_from_operations = sumField (usedQuarters c) (fun p => p.cash_flow.cash_flow_from_operations) ∧
    t.cash_flow.capital_expenditures = sumField (usedQuarters c) (fun p => p.cash_flow.capital_expenditures) ∧
    t.cash_flow.stock_based_compensation = sumField (usedQuarters c) (fun p => p.cash_flow.stock_based_compensation) ∧
    t.cash_flow.depreciation_amortization = sumField (usedQuarters c) (fun p => p.cash_flow.depreciation_amortization) ∧
    t.cash_flow.change_in_working_capital = sumField (usedQuarters c) (fun p => p.cash_flow.change_in_working_capital) ∧
    t.cash_flow.dividend_paid = sumField (usedQuarters c) (fun p => p.cash_flow.dividend_paid) ∧
    t.cash_flow.repurchase_of_common_stock = sumField (usedQuarters c) (fun p => p.cash_flow.repurchase_of_common_stock) ∧
    t.cash_flow.free_cash_flow = fcfVal (ttmBaseCashFlow (usedQuarters c)) ∧
    (∀ g : FinancialPeriod → Option ℚ,
      (sumField (usedQuarters c) g = none ↔ ∀ p ∈ usedQuarters c, g p = none) ∧
      ∀ v, sumField (usedQuarters c) g = some v →
        v = ((usedQuarters c).filterMap g).foldl (· + ·) 0 ∧ (usedQuarters c).filterMap g ≠ [])

/-- Claim C1 (amended): the TTM period aggregates each additive field by
summing non-null quarterly values (null excluded, not zero; null result iff
all four are null) — except free_cash_flow, for which the post-aggregation
calculate_fcf call can fill a derived value even when all four quarterly
free_cash_flow values are null. -/
theorem claim_C1 (c : CompanyFinancials) (h4 : 4 ≤ c.quarterly_data.length) :
    ttmSumsSpec c := by
  have hlen : (usedQuarters c).length = 4 := by
    rw [usedQuarters_length]
    omega
  obtain ⟨q0, rest, hq⟩ : ∃ q0 rest, usedQuarters c = q0 :: rest := by
    rcases h : usedQuarters c with _ | ⟨a, b⟩
    · rw [h] at hlen
      simp at hlen
    · exact ⟨a, b, rfl⟩
  have hmain := calculate_ttm_some c h4 q0 rest hq
  refine ⟨_, hmain, ?_⟩
  rw [hq]
  dsimp only
  have hd := derived_cashflow_fields (ttmBaseCashFlow (q0 :: rest))
  exact ⟨rfl, rfl, rfl, rfl, rfl, rfl, rfl, rfl, hd.1, hd.2.1, hd.2.2.1, hd.2.2.2.1,
    hd.2.2.2.2.1, hd.2.2.2.2.2.1, hd.2.2.2.2.2.2.1, hd.2.2.2.2.2.2.2,
    fun g => ⟨sumField_eq_none_iff _ g, fun v hv => sumField_eq_some _ g v hv⟩⟩

/-- Quarterly period with only a revenues figure. -/
def quarterRev (nm : String) (rev : Option ℚ) : FinancialPeriod :=
  { period_type := .QUARTERLY, period_name := nm,
    income_statement := { revenues := rev } }

/-- The spec's worked example: four quarters with revenues
[100, null, 120, 80] (newest first). -/
def exC1w : CompanyFinancials :=
  { ticker := "T", company_name := "T",
    quarterly_data := [quarterRev "2024 Q4" (some 100), quarterRev "2024 Q3" none,
                       quarterRev "2024 Q2" (some 120), quarterRev "2024 Q1" (some 80)] }

/-- Witness for claim C1: the amended property holds on the example company,
whose TTM revenue evaluates to 300 (nulls excluded from the sum). -/
theorem claim_C1_witness :
    4 ≤ exC1w.quarterly_data.length ∧ ttmSumsSpec exC1w ∧
    (calculate_ttm_from_quarters exC1w).map (fun t => t.income_statement.revenues)
      = some (some 300) := by
  refine ⟨by decide, claim_C1 exC1w (by decide), ?_⟩
  have hq : usedQuarters exC1w = [quarterRev "2024 Q4" (some 100), quarterRev "2024 Q3" none,
      quarterRev "2024 Q2" (some 120), quarterRev "2024 Q1" (some 80)] := by decide
  have h4 : ¬ (exC1w.quarterly_data.length < 4) := by decide
  simp only [calculate_ttm_from_quarters, h4, if_false, hq]
  simp [sumField, quarterRev, List.filterMap]
  norm_num

/-- Quarterly period with an operations/capex pair and a null
free_cash_flow. -/
def quarterCF (nm : String) : FinancialPeriod :=
  { period_type := .QUARTERLY, period_name := nm,
    cash_flow := { cash_flow_from_operations := some 10,
                   capital_expenditures := some (-2) } }

/-- A company whose four quarters all have free_cash_flow null but
operations and capex present. -/
def exC1 : CompanyFinancials :=
  { ticker := "T", company_name := "T",
    quarterly_data := [quarterCF "2024 Q4", quarterCF "2024 Q3",
                       quarterCF "2024 Q2", quarterCF "2024 Q1"] }

/-- Counterexample to claim C1 as stated: all four quarters have
free_cash_flow null, yet the TTM free_cash_flow is not null — the
post-aggregation calculate_fcf call derives 4*10 + 4*(-2) = 32. -/
theorem cex_C1 :
    (∀ p ∈ exC1.quarterly_data, p.cash_flow.free_cash_flow = none) ∧
    (calculate_ttm_from_quarters exC1).map (fun t => t.cash_flow.free_cash_flow)
      = some (some 32) := by
  refine ⟨by decide, ?_⟩
  have hq : usedQuarters exC1 = [quarterCF "2024 Q4", quarterCF "2024 Q3",
      quarterCF "2024 Q2", quarterCF "2024 Q1"] := by decide
  have h4 : ¬ (exC1.quarterly_data.length < 4) := by decide
  simp only [calculate_ttm_from_quarters, h4, if_false, hq]
  simp [ttmBaseCashFlow, sumField, List.filterMap, quarterCF,
    calculate_fcf, calculate_adjusted_fcf]
  norm_num

/-- Property asserted by claim C2 (amended): below four quarters the TTM
derivation yields nothing; otherwise it aggregates the FIRST FOUR quarterly
periods in input order, sorted descending among themselves. -/
abbrev ttmSelectionSpec (c : CompanyFinancials) : Prop :=
  (c.quarterly_data.length < 4 → calculate_ttm_from_quarters c = none) ∧
  (4 ≤ c.quarterly_data.length →
    ∃ t, calculate_ttm_from_quarters c = some t ∧
      (usedQuarters c).Perm (c.quarterly_data.take 4) ∧
      List.Sorted keyGE (usedQuarters c) ∧
      t.income_statement.revenues = sumField (usedQuarters c) (fun p => p.income_statement.revenues))

/-- Claim C2 (amended): calculate_ttm_from_quarters returns no result below
four quarterly periods; with at least four it operates on the first four
elements of quarterly_data in input order — not the four most recent of the
whole collection — sorted descending among themselves. -/
theorem claim_C2 (c : CompanyFinancials) : ttmSelectionSpec c := by
  constructor
  · intro h
    unfold calculate_ttm_from_quarters
    rw [if_pos h]
  · intro h4
    have hlen : (usedQuarters c).length = 4 := by
      rw [usedQuarters_length]
      omega
    obtain ⟨q0, rest, hq⟩ : ∃ q0 rest, usedQuarters c = q0 :: rest := by
      rcases h : usedQuarters c with _ | ⟨a, b⟩
      · rw [h] at hlen
        simp at hlen
      · exact ⟨a, b, rfl⟩
    refine ⟨_, calculate_ttm_some c h4 q0 rest hq, ?_, ?_, ?_⟩
    · exact List.perm_insertionSort keyGE _
    · exact List.sorted_insertionSort keyGE _
    · rw [hq]

/-- A company whose quarterly list is in ascending (oldest-first) order with
five quarters: the four most recent of the whole collection are
2023 Q2..2024 Q1, but the code takes the first four input elements,
2023 Q1..2023 Q4. -/
def exC2 : CompanyFinancials :=
  { ticker := "T", company_name := "T",
    quarterly_data := [quarterRev "2023 Q1" (some 1), quarterRev "2023 Q2" (some 2),
                       quarterRev "2023 Q3" (some 3), quarterRev "2023 Q4" (some 4),
                       quarterRev "2024 Q1" (some 5)] }

/-- Counterexample to claim C2 as stated: on exC2 the code's TTM revenue is
1+2+3+4 = 10, while the sum over the four most recent quarters of the whole
sorted collection is 2+3+4+5 = 14. -/
theorem cex_C2 :
    (calculate_ttm_from_quarters exC2).map (fun t => t.income_statement.revenues)
      = some (some 10) ∧
    sumField ((sortPeriods exC2.quarterly_data).take 4)
      (fun p => p.income_statement.revenues) = some 14 ∧
    some (10 : ℚ) ≠ some (14 : ℚ) := by
  refine ⟨?_, ?_, by norm_num⟩
  · have hq : usedQuarters exC2 = [quarterRev "2023 Q4" (some 4), quarterRev "2023 Q3" (some 3),
        quarterRev "2023 Q2" (some 2), quarterRev "2023 Q1" (some 1)] := by decide
    have h4 : ¬ (exC2.quarterly_data.length < 4) := by decide
    simp only [calculate_ttm_from_quarters, h4, if_false, hq]
    simp [sumField, quarterRev, List.filterMap]
    norm_num
  · have hs : (sortPeriods exC2.quarterly_data).take 4
        = [quarterRev "2024 Q1" (some 5), quarterRev "2023 Q4" (some 4),
           quarterRev "2023 Q3" (some 3), quarterRev "2023 Q2" (some 2)] := by decide
    rw [hs]
    simp [sumField, quarterRev, List.filterMap]
    norm_num

/-- A company with only three quarterly periods. -/
def exC2s : CompanyFinancials :=
  { ticker := "T", company_name := "T",
    quarterly_data := [quarterRev "2024 Q3" (some 1), quarterRev "2024 Q2" (some 2),
                       quarterRev "2024 Q1" (some 3)] }

/-- Five-quarter company for the witness of claim C2. -/
def exC2w : CompanyFinancials :=
  { ticker := "T", company_name := "T",
    quarterly_data := [quarterRev "2024 Q2" (some 7), quarterRev "2024 Q1" (some 6),
                       quarterRev "2023 Q4" (some 5), quarterRev "2023 Q3" (some 4),
                       quarterRev "2023 Q2" (some 3)] }

/-- Witness for claim C2 at concrete inputs: the three-quarter company gets
no TTM; the five-quarter company satisfies the amended selection property. -/
theorem claim_C2_witness :
    calculate_ttm_from_quarters exC2s = none ∧
    (∃ t, calculate_ttm_from_quarters exC2w = some t ∧
      (usedQuarters exC2w).Perm (exC2w.quarterly_data.take 4) ∧
      List.Sorted keyGE (usedQuarters exC2w) ∧
      t.income_statement.revenues = sumField (usedQuarters exC2w) (fun p => p.income_statement.revenues)) :=
  ⟨(claim_C2 exC2s).1 (by decide), (claim_C2 exC2w).2 (by decide)⟩

/-- Default used only to state positional facts via List.getD (never reached
under the stated bounds). -/
def dummyPeriod : FinancialPeriod := { period_type := .ANNUAL, period_name := "" }

theorem calcAverages_length (l : List FinancialPeriod) :
    (calcAverages l).length = l.length := by
  induction l with
  | nil => rfl
  | cons p t ih =>
    cases t with
    | nil => rfl
    | cons q rest =>
      simp only [calcAverages, List.length_cons] at ih ⊢
      omega

theorem calcAverages_getD (l : List FinancialPeriod) (i : Nat) (h1 : i + 1 < l.length) :
    (calcAverages l).getD i dummyPeriod =
      updAvg (l.getD i dummyPeriod) (l.getD (i + 1) dummyPeriod) := by
  induction l generalizing i with
  | nil => simp at h1
  | cons p t ih =>
    cases t with
    | nil => simp at h1
    | cons q rest =>
      cases i with
      | zero => rfl
      | succ j => exact ih j (by simp at h1 ⊢; omega)

theorem calcAverages_getD_last (l : List FinancialPeriod) (i : Nat) (h1 : i + 1 = l.length) :
    (calcAverages l).getD i dummyPeriod = l.getD i dummyPeriod := by
  induction l generalizing i with
  | nil => simp at h1
  | cons p t ih =>
    cases t with
    | nil =>
      have hi : i = 0 := by simp at h1; omega
      subst hi
      rfl
    | cons q rest =>
      cases i with
      | zero => simp at h1
      | succ j => exact ih j (by simp at h1 ⊢; omega)

/-- Relation "a is chronologically no older than b" (parsed year descending),
used to express that a period list is ordered newest-to-oldest. -/
def yearGE (a b : FinancialPeriod) : Prop := (periodKey b).1 ≤ (periodKey a).1

instance : DecidableRel yearGE := fun a b => by
  unfold yearGE
  infer_instance

/-- Property asserted by claim C9: in the trailing-average pass every element
except the last (the oldest, under the newest-to-oldest ordering) receives
avg_equity / avg_assets equal to the mean of its own and its successor's
value when both are present and null otherwise; the last element receives
none. -/
abbrev avgSpec (l : List FinancialPeriod) : Prop :=
  (calcAverages l).length = l.length ∧
  (∀ i : Nat, i + 1 < l.length →
    ((calcAverages l).getD i dummyPeriod).balance_sheet.avg_equity =
      (match (l.getD i dummyPeriod).balance_sheet.equity_value,
           (l.getD (i + 1) dummyPeriod).balance_sheet.equity_value with
       | some a, some b => some ((a + b) / 2)
       | _, _ => none) ∧
    ((calcAverages l).getD i dummyPeriod).balance_sheet.avg_assets =
      (match (l.getD i dummyPeriod).balance_sheet.total_assets,
           (l.getD (i + 1) dummyPeriod).balance_sheet.total_assets with
       | some a, some b => some ((a + b) / 2)
       | _, _ => none)) ∧
  (∀ i : Nat, i + 1 = l.length →
    ((calcAverages l).getD i dummyPeriod).balance_sheet.avg_equity = none ∧
    ((calcAverages l).getD i dummyPeriod).balance_sheet.avg_assets = none)

/-- Claim C9: for annual periods listed newest-to-oldest with adapters never
pre-filling the average fields, each period except the oldest gets avg_equity
(avg_assets) equal to the mean of its own and its chronological
predecessor's equity (assets) when both are present, else null; the oldest
period never receives an average. -/
theorem claim_C9 (l : List FinancialPeriod)
    (hinit : ∀ p ∈ l, p.balance_sheet.avg_equity = none ∧ p.balance_sheet.avg_assets = none)
    (_hsorted : l.Pairwise yearGE) : avgSpec l := by
  refine ⟨calcAverages_length l, ?_, ?_⟩
  · intro i h1
    rw [calcAverages_getD l i h1]
    have hmem : l.getD i dummyPeriod ∈ l := by
      rw [List.getD_eq_getElem l dummyPeriod (by omega)]
      exact List.getElem_mem _
    have hcur := hinit _ hmem
    unfold updAvg
    constructor
    · dsimp only
      rcases (l.getD i dummyPeriod).balance_sheet.equity_value with _ | a <;>
        rcases (l.getD (i + 1) dummyPeriod).balance_sheet.equity_value with _ | b <;>
        first
          | rfl
          | exact hcur.1
    · dsimp only
      rcases (l.getD i dummyPeriod).balance_sheet.total_assets with _ | a <;>
        rcases (l.getD (i + 1) dummyPeriod).balance_sheet.total_assets with _ | b <;>
        first
          | rfl
          | exact hcur.2
  · intro i h1
    rw [calcAverages_getD_last l i h1]
    have hmem : l.getD i dummyPeriod ∈ l := by
      rw [List.getD_eq_getElem l dummyPeriod (by omega)]
      exact List.getElem_mem _
    exact hinit _ hmem

/-- Annual period with an equity value only. -/
def annualEq (nm : String) (eq : Option ℚ) : FinancialPeriod :=
  { period_type := .ANNUAL, period_name := nm,
    balance_sheet := { equity_value := eq } }

/-- The spec's example: three annual periods newest-to-oldest with equity
[300, 200, 100]. -/
def exC9annual : List FinancialPeriod :=
  [annualEq "2023" (some 300), annualEq "2022" (some 200), annualEq "2021" (some 100)]

/-- Witness for claim C9: on the example list the hypotheses hold and the
computed averages are [250, 150, none]. -/
theorem claim_C9_witness :
    (∀ p ∈ exC9annual, p.balance_sheet.avg_equity = none ∧ p.balance_sheet.avg_assets = none) ∧
    exC9annual.Pairwise yearGE ∧
    avgSpec exC9annual ∧
    (calcAverages exC9annual).map (fun p => p.balance_sheet.avg_equity)
      = [some 250, some 150, none] := by
  refine ⟨by decide, by decide, claim_C9 exC9annual (by decide) (by decide), ?_⟩
  simp [calcAverages, updAvg, exC9annual, annualEq]
  norm_num

/-- Property asserted by claim C10: parse_from_text always succeeds, the
returned company carries the supplied ticker, and a missing header row yields
the empty company record. -/
abbrev parseTotalSpec : Prop :=
  ∀ (floatFn : String → Except Unit ℚ) (text ticker : String),
    ∃ c : CompanyFinancials, parse_from_text floatFn text ticker = .ok c ∧
      c.ticker = ticker ∧ c.company_name = ticker ∧
      (findIdxA isHeaderRow (mkData text) = none → c = emptyCompany ticker)

theorem parse_from_text_total : parseTotalSpec := by
  intro fn text ticker
  unfold parse_from_text
  dsimp only
  cases h : findIdxA isHeaderRow (mkData text) with
  | none => exact ⟨emptyCompany ticker, rfl, rfl, rfl, fun _ => rfl⟩
  | some idx =>
    have hlt := findIdxA_lt_length _ _ _ h
    dsimp only
    rw [listGet_ok (mkData text) idx hlt]
    dsimp only
    split
    · exact ⟨_, rfl, rfl, rfl, fun hn => Option.noConfusion hn⟩
    · exact ⟨_, rfl, rfl, rfl, fun hn => Option.noConfusion hn⟩

/-- Claim C10: for every float-parsing oracle, input text and ticker, the
Text Adapter is total — it returns a CompanyFinancials (never an error),
keeps the supplied ticker, and returns an empty valid record when no header
row is present.  Short rows, unparsable cells and unknown labels are all
swallowed inside applyRow/applyCells by construction of the same recursion
Python's guarded loops perform. -/
theorem claim_C10 : parseTotalSpec := parse_from_text_total

/-- Float-parsing oracle on which every cell fails (a worst case for
robustness: all float() calls raise ValueError). -/
def fnErr : String → Except Unit ℚ := fun _ => .error ()

/-- Witness for claim C10 on a concrete headerless input. -/
theorem claim_C10_witness :
    ∃ c : CompanyFinancials,
      parse_from_text fnErr "no tabular header here" "AAPL" = .ok c ∧
      c.ticker = "AAPL" ∧ c.company_name = "AAPL" ∧
      (findIdxA isHeaderRow (mkData "no tabular header here") = none →
        c = emptyCompany "AAPL") :=
  claim_C10 fnErr "no tabular header here" "AAPL"

/-- Property asserted by claim C7 (amended): with the API client available,
a source of at most 6 characters that is alphabetic after removing '.'
characters goes to the API adapter; otherwise a source containing a tab or
more than 3 newlines goes to the Text Adapter; any other source returns no
company and leaves the cache unchanged. -/
abbrev routeSpec : Prop :=
  ∀ (getProfile : String → Option (List Profile))
    (getAnnual getQuarterly : String → List FinancialPeriod)
    (floatFn : String → Except Unit ℚ)
    (companies : List (String × CompanyFinancials))
    (source : String) (ticker : Option String),
    (condApi source = true →
      (load_company getProfile getAnnual getQuarterly floatFn true companies source ticker).1
        = fetch_company getProfile getAnnual getQuarterly (pyUpperS source) 10) ∧
    (condApi source = false → condText source = true →
      (load_company getProfile getAnnual getQuarterly floatFn true companies source ticker).1
        = (parse_from_text floatFn source (pyTickerOr ticker)).toOption) ∧
    (condApi source = false → condText source = false →
      load_company getProfile getAnnual getQuarterly floatFn true companies source ticker
        = (none, companies))

/-- Claim C7 (amended): routing of load_company.  The API test strips '.'
from the source before the alphabetic check (so e.g. "BRK.B" is a valid
ticker form), the text test is a tab or more than three newlines, and
everything else returns no company. -/
theorem claim_C7 : routeSpec := by
  intro gp ga gq fl cs s tk
  refine ⟨?_, ?_, ?_⟩
  · intro h
    unfold load_company
    rw [h]
    dsimp only [Bool.and_true, if_true]
    cases hf : fetch_company gp ga gq (pyUpperS s) 10 <;> simp [hf]
  · intro h1 h2
    unfold load_company
    rw [h1, h2]
    dsimp only [Bool.false_and, if_false, if_true]
    cases hp : parse_from_text fl s (pyTickerOr tk) <;> simp [hp, Except.toOption]
  · intro h1 h2
    unfold load_company
    rw [h1, h2]
    rfl

/-- Profile oracle used by the concrete manager runs. -/
def gp0 : String → Option (List Profile) :=
  fun _ => some [{ companyName := some "Acme", currency := some "USD" }]

/-- Statement oracle returning no periods. -/
def ga0 : String → List FinancialPeriod := fun _ => []

/-- Counterexample to claim C7 as stated: "BRK.B" is not alphabetic (it
contains '.'), has no tab and no newline, so the claim places it in the
"returns no company" bucket; the code strips the dot, routes it to the API
path and returns a company. -/
theorem cex_C7 :
    pyIsAlpha "BRK.B".data = false ∧
    "BRK.B".data.contains '\t' = false ∧
    "BRK.B".data.count '\n' ≤ 3 ∧
    (load_company gp0 ga0 ga0 fnErr true [] "BRK.B" none).1
      = some { ticker := "BRK.B", company_name := "Acme", currency := "USD" } := by
  refine ⟨by decide, by decide, by decide, by decide⟩

/-- Witness for claim C7: "AAPL" routes to the API adapter, a tab-bearing
source routes to the Text Adapter, and "12345678" (long, non-alphabetic, no
tabs, no newlines) yields no company and an unchanged cache. -/
theorem claim_C7_witness :
    (load_company gp0 ga0 ga0 fnErr true [] "AAPL" none).1
      = fetch_company gp0 ga0 ga0 (pyUpperS "AAPL") 10 ∧
    (load_company gp0 ga0 ga0 fnErr true [] "a\tb" none).1
      = (parse_from_text fnErr "a\tb" (pyTickerOr none)).toOption ∧
    load_company gp0 ga0 ga0 fnErr true [] "12345678" none = (none, []) :=
  ⟨(claim_C7 gp0 ga0 ga0 fnErr [] "AAPL" none).1 (by decide),
   (claim_C7 gp0 ga0 ga0 fnErr [] "a\tb" none).2.1 (by decide) (by decide),
   (claim_C7 gp0 ga0 ga0 fnErr [] "12345678" none).2.2 (by decide) (by decide)⟩

/-- Ticker stored by fetch_company: always the upper-then-stripped symbol. -/
theorem fetch_company_ticker (gp : String → Option (List Profile))
    (ga gq : String → List FinancialPeriod) (sym : String) (n : Nat)
    (c : CompanyFinancials) (h : fetch_company gp ga gq sym n = some c) :
    c.ticker = pyStripS (pyUpperS sym) := by
  unfold fetch_company at h
  dsimp only at h
  cases hp : gp (pyStripS (pyUpperS sym)) with
  | none =>
    rw [hp] at h
    exact Option.noConfusion h
  | some l =>
    cases l with
    | nil =>
      rw [hp] at h
      exact Option.noConfusion h
    | cons p ps =>
      rw [hp] at h
      dsimp only at h
      injection h with h2
      subst h2
      dsimp only
      split <;> rfl

/-- Reduction of load_company on the API branch. -/
theorem load_company_api (gp : String → Option (List Profile))
    (ga gq : String → List FinancialPeriod) (fl : String → Except Unit ℚ)
    (cs : List (String × CompanyFinancials)) (s : String) (tk : Option String)
    (h : condApi s = true) :
    load_company gp ga gq fl true cs s tk =
      match fetch_company gp ga gq (pyUpperS s) 10 with
      | some c => (some c, dictInsert cs c.ticker c)
      | none => (none, cs) := by
  unfold load_company
  rw [h]
  rfl

/-- Reduction of load_company on the text branch. -/
theorem load_company_text (gp : String → Option (List Profile))
    (ga gq : String → List FinancialPeriod) (fl : String → Except Unit ℚ)
    (cs : List (String × CompanyFinancials)) (s : String) (tk : Option String)
    (h1 : condApi s = false) (h2 : condText s = true) :
    load_company gp ga gq fl true cs s tk =
      match (match parse_from_text fl s (pyTickerOr tk) with
             | .ok c => some c
             | .error _ => none) with
      | some c => (some c, dictInsert cs c.ticker c)
      | none => (none, cs) := by
  unfold load_company
  rw [h1, h2]
  rfl

/-- Property asserted by claim C8 (amended): on the API path the cache key
(the company's ticker) is the uppercased-then-trimmed source; on the text
path it is the supplied ticker label (or "UNKNOWN"), stored verbatim with no
trimming or uppercasing. -/
abbrev cacheKeySpec : Prop :=
  ∀ (getProfile : String → Option (List Profile))
    (getAnnual getQuarterly : String → List FinancialPeriod)
    (floatFn : String → Except Unit ℚ)
    (companies : List (String × CompanyFinancials))
    (source : String) (ticker : Option String) (c : CompanyFinancials),
    (condApi source = true →
      (load_company getProfile getAnnual getQuarterly floatFn true companies source ticker).1
        = some c →
      c.ticker = pyStripS (pyUpperS (pyUpperS source)) ∧
      (load_company getProfile getAnnual getQuarterly floatFn true companies source ticker).2
        = dictInsert companies c.ticker c) ∧
    (condApi source = false → condText source = true →
      (load_company getProfile getAnnual getQuarterly floatFn true companies source ticker).1
        = some c →
      c.ticker = pyTickerOr ticker ∧
      (load_company getProfile getAnnual getQuarterly floatFn true companies source ticker).2
        = dictInsert companies c.ticker c)

/-- Claim C8 (amended): the API ingestion path normalizes the ticker
(uppercase, then strip) before it becomes the company's ticker and hence the
cache key; the text ingestion path uses the caller-supplied ticker label
verbatim as the cache key, with no normalization. -/
theorem claim_C8 : cacheKeySpec := by
  intro gp ga gq fl cs s tk c
  constructor
  · intro h hsome
    rw [load_company_api gp ga gq fl cs s tk h] at hsome ⊢
    cases hf : fetch_company gp ga gq (pyUpperS s) 10 with
    | none =>
      rw [hf] at hsome
      exact Option.noConfusion hsome
    | some c0 =>
      rw [hf] at hsome
      dsimp only at hsome
      injection hsome with h2
      subst h2
      exact ⟨fetch_company_ticker gp ga gq (pyUpperS s) 10 c0 hf, rfl⟩
  · intro h1 h2 hsome
    obtain ⟨c0, hok, htk, _, _⟩ := parse_from_text_total fl s (pyTickerOr tk)
    rw [load_company_text gp ga gq fl cs s tk h1 h2] at hsome ⊢
    rw [hok] at hsome ⊢
    dsimp only at hsome ⊢
    injection hsome with h3
    subst h3
    exact ⟨htk, rfl⟩

/-- Counterexample to claim C8 as stated: a tab-bearing source with ticker
label "aapl" is stored in the cache under the key "aapl" itself — not under
a trimmed-and-uppercased form ("AAPL"). -/
theorem cex_C8 :
    (load_company gp0 ga0 ga0 fnErr true [] "x\ty" (some "aapl")).1
      = some (emptyCompany "aapl") ∧
    (load_company gp0 ga0 ga0 fnErr true [] "x\ty" (some "aapl")).2
      = [("aapl", emptyCompany "aapl")] ∧
    pyStripS (pyUpperS "aapl") ≠ "aapl" := by
  refine ⟨by decide, by decide, by decide⟩

/-- The company the API path produces for source "aapl" under gp0/ga0. -/
def cW8 : CompanyFinancials :=
  { ticker := "AAPL", company_name := "Acme", currency := "USD" }

/-- Witness for claim C8: on the API path with lowercase source "aapl" the
cache key is the normalized "AAPL". -/
theorem claim_C8_witness :
    cW8.ticker = pyStripS (pyUpperS (pyUpperS "aapl")) ∧
    (load_company gp0 ga0 ga0 fnErr true [] "aapl" none).2
      = dictInsert [] cW8.ticker cW8 :=
  (claim_C8 gp0 ga0 ga0 fnErr [] "aapl" none cW8).1 (by decide) (by decide)
